import Mathlib

/-!
Verification of the automation/workflow execution engine of the
kepleroai-backend repository (`src/services/automationEngine.service.ts`),
as described by its natural-language specification.

The embedding is shallow: the engine's stateful TypeScript methods are
translated into pure Lean functions that make every persisted effect
explicit in their result value.  Handler registries become lookup
functions; the database documents loaded and saved by a run become
explicit inputs and outputs; a thrown JavaScript error becomes the
`Except.error` constructor carrying the error's message; a method that
returns normally becomes `Except.ok`.

Fidelity notes, recorded once here and referenced from the definitions:
* The `Automation` and `AutomationExecution` Mongoose schema files are not
  part of the provided sources (only the engine that uses them is), so the
  creation-time defaults of an execution record are modelled from the
  spec's data model: a fresh record starts `pending`, with the supplied
  trigger payload, an empty `actionData` list (the default of a Mongoose
  array field), and no error message.
* `new Date()` timestamps are modelled by an explicit `now : Nat`
  parameter; console logging has no observable effect and is dropped.
* A `delay` node only suspends the run (`setTimeout`); it reads or writes
  no engine state, so in the model it contributes nothing to the result.
-/

namespace AutomationEngine

/-- The three node kinds of an automation pipeline (`node.type`). -/
inductive NodeType where
  | trigger
  | action
  | delay
deriving DecidableEq

/-- One node of an automation: `{ id, type, service, config, position }`.
The `config` payload is opaque to the engine, hence a type parameter. -/
structure Node (Cfg : Type) where
  id : String
  type : NodeType
  service : String
  config : Cfg
  position : Int
deriving DecidableEq

/-- A stored automation document: identity, `isActive` flag, node list and
the run statistics `executionCount` / `lastExecutedAt`. -/
structure Automation (Cfg : Type) where
  id : String
  name : String
  isActive : Bool
  nodes : List (Node Cfg)
  executionCount : Nat
  lastExecutedAt : Option Nat
deriving DecidableEq

/-- Status of an execution record. -/
inductive ExecStatus where
  | pending
  | success
  | failed
deriving DecidableEq

/-- One element of an execution record's `actionData` list:
`{ nodeId, service, result }` as pushed by the orchestration loop. -/
structure ActionEntry (Res : Type) where
  nodeId : String
  service : String
  result : Res
deriving DecidableEq

/-- An `AutomationExecution` document.  Modelled from the spec: the schema
file is absent from the sources, so the field set and creation defaults
follow the spec's data model (status `pending`, empty `actionData`, no
`errorMessage` at creation). -/
structure AutomationExecution (Dat Res : Type) where
  automationId : String
  status : ExecStatus
  triggerData : Dat
  actionData : List (ActionEntry Res)
  errorMessage : Option String
deriving DecidableEq

/-- The two handler registries of the engine (`this.triggers` and
`this.actions`), as lookup functions from a service identifier.  A trigger
handler's `validate(config, data)` may resolve to a boolean or reject; an
action handler's `execute(config, triggerData, context)` may resolve to a
result or reject.  The optional `context` mirrors the `context?: any`
parameter threaded through by the engine. -/
structure EngineEnv (Cfg Dat Res Ctx : Type) where
  triggers : String → Option (Cfg → Dat → Except String Bool)
  actions : String → Option (Cfg → Dat → Option Ctx → Except String Res)

/-- Comparator order used by `automation.nodes.sort((a, b) => a.position - b.position)`. -/
def nodeLE {Cfg : Type} (a b : Node Cfg) : Prop := a.position ≤ b.position

instance {Cfg : Type} : DecidableRel (@nodeLE Cfg) := fun a b =>
  inferInstanceAs (Decidable (a.position ≤ b.position))

instance {Cfg : Type} : IsTotal (Node Cfg) nodeLE :=
  ⟨fun a b => Int.le_total a.position b.position⟩

instance {Cfg : Type} : IsTrans (Node Cfg) nodeLE :=
  ⟨fun _ _ _ hab hbc => le_trans hab hbc⟩

/-- `automation.nodes.sort((a, b) => a.position - b.position)`: the stable
JavaScript array sort by ascending `position`, modelled as a stable
insertion sort. -/
def sortNodes {Cfg : Type} (nodes : List (Node Cfg)) : List (Node Cfg) :=
  nodes.insertionSort nodeLE

/-- The `for (const node of sortedNodes)` loop of `executeAutomation`.
A `delay` node suspends and continues; a `trigger` node matches neither
branch of the `if`/`else if` and is skipped; an `action` node looks up its
handler (raising `Action handler not found: …` when absent), invokes it,
and pushes `{ nodeId, service, result }` onto `actionResults`.

Returns `(actionResults, invoked, error?)` where `invoked` lists the ids
of the action nodes whose handler was actually called, in call order, and
`error?` is the message of the first raised error, if any (the loop stops
there). -/
def runNodes {Cfg Dat Res Ctx : Type}
    (acts : String → Option (Cfg → Dat → Option Ctx → Except String Res))
    (td : Dat) (ctx : Option Ctx) :
    List (Node Cfg) → List (ActionEntry Res) × List String × Option String
  | [] => ([], [], none)
  | n :: rest =>
    if n.type = NodeType.action then
      match acts n.service with
      | none => ([], [], some ("Action handler not found: " ++ n.service))
      | some h =>
        match h n.config td ctx with
        | .error e => ([], [n.id], some e)
        | .ok r =>
          let out := runNodes acts td ctx rest
          (⟨n.id, n.service, r⟩ :: out.1, n.id :: out.2.1, out.2.2)
    else
      runNodes acts td ctx rest

deriving instance DecidableEq for Except

/-- Everything observable about one call of `executeAutomation`:
* `record` — the persisted `AutomationExecution` in its final saved state,
  or `none` when the call was rejected before creating one;
* `automationAfter` — the automation document after the run (`none` when
  the id did not resolve); only a successful run saves updated statistics;
* `invoked` — ids of the action nodes whose handler was called;
* `outcome` — `.error msg` when the call re-raises to the caller,
  `.ok none` when it returns without a value (the trigger-mismatch
  `return;`), `.ok (some results)` for the success return value. -/
structure ExecOutcome (Cfg Dat Res : Type) where
  record : Option (AutomationExecution Dat Res)
  automationAfter : Option (Automation Cfg)
  invoked : List String
  outcome : Except String (Option (List (ActionEntry Res)))
deriving DecidableEq

/-- `executeAutomation(automationId, triggerData, context)`.  The database
lookup `Automation.findById` is modelled by the explicit `db` argument.
On success the saved automation carries the incremented `executionCount`,
the new `lastExecutedAt`, and its node array as re-ordered in place by the
sort; on every failure path `automation.save()` is never called, so the
stored document is unchanged. -/
def executeAutomation {Cfg Dat Res Ctx : Type} (env : EngineEnv Cfg Dat Res Ctx)
    (db : Option (Automation Cfg)) (triggerData : Dat) (ctx : Option Ctx) (now : Nat) :
    ExecOutcome Cfg Dat Res :=
  match db with
  | none => ⟨none, none, [], .error "Automation not found or inactive"⟩
  | some automation =>
    if automation.isActive then
      let execution : AutomationExecution Dat Res :=
        ⟨automation.id, .pending, triggerData, [], none⟩
      let sortedNodes := sortNodes automation.nodes
      match sortedNodes.find? (fun n => n.type == NodeType.trigger) with
      | none =>
        ⟨some { execution with status := .failed, errorMessage := some "No trigger node found" },
         some automation, [], .error "No trigger node found"⟩
      | some triggerNode =>
        match env.triggers triggerNode.service with
        | none =>
          ⟨some { execution with
                  status := .failed,
                  errorMessage := some ("Trigger handler not found: " ++ triggerNode.service) },
           some automation, [],
           .error ("Trigger handler not found: " ++ triggerNode.service)⟩
        | some validate =>
          match validate triggerNode.config triggerData with
          | .error e =>
            ⟨some { execution with status := .failed, errorMessage := some e },
             some automation, [], .error e⟩
          | .ok false =>
            ⟨some { execution with
                    status := .failed,
                    errorMessage := some "Trigger validation failed" },
             some automation, [], .ok none⟩
          | .ok true =>
            let run := runNodes env.actions triggerData ctx sortedNodes
            match run.2.2 with
            | some e =>
              ⟨some { execution with status := .failed, errorMessage := some e },
               some automation, run.2.1, .error e⟩
            | none =>
              ⟨some { execution with status := .success, actionData := run.1 },
               some { automation with
                      nodes := sortedNodes,
                      executionCount := automation.executionCount + 1,
                      lastExecutedAt := some now },
               run.2.1, .ok (some run.1)⟩
    else
      ⟨none, some automation, [], .error "Automation not found or inactive"⟩

/-- One element of the list returned by `triggerByEvent`. -/
structure TriggerResult where
  automationId : String
  name : String
  triggered : Bool
deriving DecidableEq

/-- The per-automation matching test performed inside the dispatch loop of
`triggerByEvent`: a trigger node is located in stored array order, its
handler looked up (a missing handler means `continue`), and `validate`
invoked — a rejection is caught, logged and treated as a non-match. -/
def matchesTrigger {Cfg Dat Res Ctx : Type} (env : EngineEnv Cfg Dat Res Ctx)
    (eventData : Dat) (a : Automation Cfg) : Bool :=
  match a.nodes.find? (fun n => n.type == NodeType.trigger) with
  | none => false
  | some tn =>
    match env.triggers tn.service with
    | none => false
    | some validate =>
      match validate tn.config eventData with
      | .ok true => true
      | .ok false => false
      | .error _ => false

/-- The `for (const automation of automations)` loop of `triggerByEvent`:
for each automation, a missing trigger node or missing trigger handler is
skipped with `continue`; a rejection from `validate` is caught and the
loop continues; a match launches `executeAutomation` (fire-and-forget, its
rejection swallowed by `.catch`) and pushes
`{ automationId, name, triggered: true }`.  Returns the pushed results
together with the outcomes of the launched runs. -/
def dispatchLoop {Cfg Dat Res Ctx : Type} (env : EngineEnv Cfg Dat Res Ctx)
    (eventData : Dat) (ctx : Option Ctx) (now : Nat) :
    List (Automation Cfg) → List TriggerResult × List (ExecOutcome Cfg Dat Res)
  | [] => ([], [])
  | a :: rest =>
    let tail := dispatchLoop env eventData ctx now rest
    if matchesTrigger env eventData a then
      (⟨a.id, a.name, true⟩ :: tail.1,
       executeAutomation env (some a) eventData ctx now :: tail.2)
    else
      tail

/-- `triggerByEvent(event, eventData, context)`: load every automation with
`isActive = true` (`Automation.find({ isActive: true })`) and run the
dispatch loop over them.  The asynchronously launched runs observe the
same stored documents, modelled by passing each matched automation through
unchanged. -/
def triggerByEvent {Cfg Dat Res Ctx : Type} (env : EngineEnv Cfg Dat Res Ctx)
    (automations : List (Automation Cfg)) (eventData : Dat) (ctx : Option Ctx) (now : Nat) :
    List TriggerResult × List (ExecOutcome Cfg Dat Res) :=
  dispatchLoop env eventData ctx now (automations.filter (·.isActive))

/-- The value returned by `testAutomation`: `{ status, result: { triggered,
actionExecuted, message } }`, flattened (the `testId` timestamp string is
dropped, being pure clock output). -/
structure TestRunResult where
  status : String
  triggered : Bool
  actionExecuted : Bool
  message : String
deriving DecidableEq

/-- `testAutomation(automationId, testData)`: a missing automation raises a
404 `AppError`; otherwise `executeAutomation` is awaited with no context
inside `try`/`catch` — a raised error becomes a `failed` result carrying
its message, and any normal return (a successful run, or the undefined
return of a trigger mismatch) becomes the fixed `success` result. -/
def testAutomation {Cfg Dat Res Ctx : Type} (env : EngineEnv Cfg Dat Res Ctx)
    (db : Option (Automation Cfg)) (testData : Dat) (now : Nat) :
    Except String TestRunResult :=
  match db with
  | none => .error "Automation not found"
  | some automation =>
    match (executeAutomation env (some automation) testData (none : Option Ctx) now).outcome with
    | .error e =>
      .ok { status := "failed", triggered := false, actionExecuted := false, message := e }
    | .ok _ =>
      .ok { status := "success", triggered := true, actionExecuted := true,
            message := "Test completed successfully" }

/-- The failure object of a rejected axios request, as the handlers read
it: `error.message`, `error.code`, `error.response?.status` and
`error.response?.data?.message` (each possibly absent). -/
structure HttpFailure where
  message : Option String
  code : Option String
  responseStatus : Option Nat
  responseMessage : Option String
deriving DecidableEq

/-- A resolved axios response as read by the `keplero_api_call` handler:
`response.status` and `response.data` (the body kept opaque as a string). -/
structure HttpResponse where
  status : Nat
  body : String
deriving DecidableEq

/-- The structured result returned by the `keplero_api_call` handler. -/
structure ApiCallResult where
  success : Bool
  status : Option Nat
  data : Option String
  error : Option String
deriving DecidableEq

/-- The `keplero_api_call` action handler.  The outcome of the axios
request is the explicit input `net`.  The handler's `try`/`catch` converts
a resolved response into `{ success: true, status, data }` and a rejected
request into `{ success: false, error: error.message, status:
error.response?.status }` — in both cases a normally returned value, so
the model's codomain is `Except` with no `.error` ever produced. -/
def keplero_api_call (net : Except HttpFailure HttpResponse) : Except String ApiCallResult :=
  match net with
  | .ok r => .ok { success := true, status := some r.status, data := some r.body, error := none }
  | .error f => .ok { success := false, status := f.responseStatus, data := none, error := f.message }

/-- A customer document as read by the `keplero_outbound_call` handler. -/
structure Contact where
  id : String
  name : Option String
  phone : Option String
deriving DecidableEq

/-- The body of a resolved call-dispatch response:
`data.status` and `data.transcript`. -/
structure CallResponse where
  status : String
  transcript : Option String
deriving DecidableEq

/-- The structured result returned by the `keplero_outbound_call` handler. -/
structure OutboundCallResult where
  success : Bool
  status : Option String
  transcript : Option String
  error : Option String
  errorDetails : Option String
  contactId : Option String
  phone : Option String
deriving DecidableEq

/-- The `keplero_outbound_call` action handler, modelled at its
network-call boundary.  Explicit inputs stand for the handler's database
reads: the resolved contact id (`triggerData.contactId || config.contactId`),
the `Customer.findById` result, whether configured phone settings were
found, and the outcome `net` of the axios POST to the call service.
The request-shaping phase (voice-id mapping, API-key and knowledge-base
lookup — each wrapped in its own internal `catch` that only logs) and the
post-success bookkeeping are elided: they do not change what is thrown or
returned on a network failure.  The early guard clauses `throw`
(`Except.error`), while a rejected axios call is caught and returned as
`{ success: false, error, errorDetails, contactId, phone }`. -/
def keplero_outbound_call (contactId : Option String) (contact : Option Contact)
    (settingsConfigured : Bool) (net : Except HttpFailure CallResponse) :
    Except String OutboundCallResult :=
  match contactId with
  | none => .error "Contact ID is required for outbound call"
  | some _ =>
    match contact with
    | none => .error "Contact not found or phone number missing"
    | some c =>
      match c.phone with
      | none => .error "Contact not found or phone number missing"
      | some ph =>
        if settingsConfigured then
          match net with
          | .ok r =>
            .ok { success := true, status := some r.status, transcript := r.transcript,
                  error := none, errorDetails := none, contactId := some c.id, phone := some ph }
          | .error f =>
            .ok { success := false, status := none, transcript := none,
                  error := some (((f.responseMessage).or f.message).getD "Call failed"),
                  errorDetails := if f.code == some "ECONNREFUSED" then
                      some "Python backend not reachable" else f.message,
                  contactId := some c.id, phone := some ph }
        else
          .error "Phone settings not configured. Please configure phone settings in the Settings page."

/-! Concrete instantiation used by the witness theorems: configs and
contexts are trivial (`Unit`), event payloads and action results are
natural numbers. -/

/-- A trigger handler that validates exactly the payload `1`. -/
def trigEq1 : Unit → Nat → Except String Bool := fun _ d => .ok (d == 1)

/-- A trigger handler that rejects (throws) on every payload. -/
def trigBlow : Unit → Nat → Except String Bool := fun _ _ => .error "validator exploded"

/-- An action handler that succeeds, echoing the payload. -/
def actEcho : Unit → Nat → Option Unit → Except String Nat := fun _ d _ => .ok d

/-- An action handler that rejects (throws) on every invocation. -/
def actBoom : Unit → Nat → Option Unit → Except String Nat := fun _ _ _ => .error "boom"

/-- A concrete registry environment for the witnesses. -/
def envW : EngineEnv Unit Nat Nat Unit where
  triggers := fun s =>
    if s = "t_eq1" then some trigEq1
    else if s = "t_blow" then some trigBlow
    else none
  actions := fun s =>
    if s = "a_echo" then some actEcho
    else if s = "a_boom" then some actBoom
    else none

/-- A registry with the same triggers as `envW` but no action handler at
all — used to show dispatch results do not depend on the action side. -/
def envNoActs : EngineEnv Unit Nat Nat Unit where
  triggers := envW.triggers
  actions := fun _ => none

/-- Trigger node (position 1) recognised by `envW`. -/
def trigNode : Node Unit := ⟨"n_t", .trigger, "t_eq1", (), 1⟩

/-- First action node (position 2), succeeding handler. -/
def act1 : Node Unit := ⟨"n_a1", .action, "a_echo", (), 2⟩

/-- Second action node (position 3), succeeding handler. -/
def act2 : Node Unit := ⟨"n_a2", .action, "a_echo", (), 3⟩

/-- Second action node (position 3) whose handler throws. -/
def act2boom : Node Unit := ⟨"n_a2", .action, "a_boom", (), 3⟩

/-- An active automation whose nodes are stored out of `position` order. -/
def autoOk : Automation Unit := ⟨"A1", "Auto OK", true, [act2, trigNode, act1], 5, none⟩

/-- An active automation whose second action node throws. -/
def autoBoom : Automation Unit := ⟨"A2", "Auto Boom", true, [trigNode, act1, act2boom], 5, none⟩

/-- An active automation with no trigger node at all. -/
def autoNoTrig : Automation Unit := ⟨"A3", "Auto NoTrig", true, [act1], 0, none⟩

/-- An inactive automation. -/
def autoInactive : Automation Unit := ⟨"A4", "Auto Off", false, [trigNode, act1], 0, none⟩

/-- An active automation whose trigger names a service with no registered
handler in `envW`. -/
def autoUnknownTrig : Automation Unit :=
  ⟨"A5", "Auto Unknown", true, [⟨"n_t", .trigger, "t_missing", (), 1⟩, act1], 0, none⟩

/-! Shared lemmas about the orchestration loop and the dispatch loop. -/

/-- The ids of the invoked action nodes form a prefix of the ids of all
action nodes in traversal order: once the loop stops at a raise, no later
action node is ever invoked. -/
theorem runNodes_invoked_prefix {Cfg Dat Res Ctx : Type}
    (acts : String → Option (Cfg → Dat → Option Ctx → Except String Res))
    (td : Dat) (ctx : Option Ctx) :
    ∀ ns : List (Node Cfg), ∃ later,
      (ns.filter (fun n => n.type == NodeType.action)).map (·.id) =
        (runNodes acts td ctx ns).2.1 ++ later := by
  intro ns
  induction ns with
  | nil => exact ⟨[], rfl⟩
  | cons n rest ih =>
    obtain ⟨later, hl⟩ := ih
    by_cases hT : n.type = NodeType.action
    · cases hA : acts n.service with
      | none =>
        refine ⟨n.id :: (rest.filter (fun n => n.type == NodeType.action)).map (·.id), ?_⟩
        simp [runNodes, hT, hA, List.filter_cons]
      | some h =>
        cases hE : h n.config td ctx with
        | error e =>
          refine ⟨(rest.filter (fun n => n.type == NodeType.action)).map (·.id), ?_⟩
          simp [runNodes, hT, hA, hE, List.filter_cons]
        | ok r =>
          refine ⟨later, ?_⟩
          simp [runNodes, hT, hA, hE, List.filter_cons, hl]
    · refine ⟨later, ?_⟩
      simp [runNodes, hT, List.filter_cons, hl]

/-- When the loop completes without a raise, the accumulated entries carry
the id and service of every action node in traversal order, and every
action node was invoked. -/
theorem runNodes_ok_entries {Cfg Dat Res Ctx : Type}
    (acts : String → Option (Cfg → Dat → Option Ctx → Except String Res))
    (td : Dat) (ctx : Option Ctx) :
    ∀ (ns : List (Node Cfg)) entries invoked,
      runNodes acts td ctx ns = (entries, invoked, none) →
      entries.map (fun en => (en.nodeId, en.service)) =
        (ns.filter (fun n => n.type == NodeType.action)).map (fun n => (n.id, n.service)) ∧
      invoked = (ns.filter (fun n => n.type == NodeType.action)).map (·.id) := by
  intro ns
  induction ns with
  | nil =>
    intro entries invoked h
    simp [runNodes] at h
    simp [h.1, h.2]
  | cons n rest ih =>
    intro entries invoked h
    by_cases hT : n.type = NodeType.action
    · cases hA : acts n.service with
      | none => simp [runNodes, hT, hA] at h
      | some hd =>
        cases hE : hd n.config td ctx with
        | error e => simp [runNodes, hT, hA, hE] at h
        | ok r =>
          rcases hrec : runNodes acts td ctx rest with ⟨es, iv, er⟩
          simp [runNodes, hT, hA, hE, hrec] at h
          obtain ⟨he, hi, hn⟩ := h
          obtain ⟨ih1, ih2⟩ := ih es iv (by rw [hrec, hn])
          subst he hi
          simp [List.filter_cons, hT, ih1, ih2]
    · have := ih entries invoked (by simpa [runNodes, hT] using h)
      simpa [List.filter_cons, hT] using this

/-- The matched-automation list produced by the dispatch loop is exactly
the filter of the input by the per-automation matching test, mapped to
`{ automationId, name, triggered: true }`. -/
theorem dispatchLoop_fst {Cfg Dat Res Ctx : Type} (env : EngineEnv Cfg Dat Res Ctx)
    (ed : Dat) (ctx : Option Ctx) (now : Nat) :
    ∀ l : List (Automation Cfg),
      (dispatchLoop env ed ctx now l).1 =
        (l.filter (matchesTrigger env ed)).map (fun a => ⟨a.id, a.name, true⟩) := by
  intro l
  induction l with
  | nil => rfl
  | cons a rest ih =>
    by_cases h : matchesTrigger env ed a
    · simp [dispatchLoop, h, List.filter_cons, ih]
    · simp [dispatchLoop, h, List.filter_cons, ih]

/-- The runs launched by the dispatch loop are exactly one orchestration
per matched automation. -/
theorem dispatchLoop_snd {Cfg Dat Res Ctx : Type} (env : EngineEnv Cfg Dat Res Ctx)
    (ed : Dat) (ctx : Option Ctx) (now : Nat) :
    ∀ l : List (Automation Cfg),
      (dispatchLoop env ed ctx now l).2 =
        (l.filter (matchesTrigger env ed)).map
          (fun a => executeAutomation env (some a) ed ctx now) := by
  intro l
  induction l with
  | nil => rfl
  | cons a rest ih =>
    by_cases h : matchesTrigger env ed a
    · simp [dispatchLoop, h, List.filter_cons, ih]
    · simp [dispatchLoop, h, List.filter_cons, ih]

/-- The matching test reads only the trigger registry, never the action
registry. -/
theorem matchesTrigger_triggers_only {Cfg Dat Res Ctx : Type}
    (env env' : EngineEnv Cfg Dat Res Ctx) (h : env'.triggers = env.triggers)
    (ed : Dat) (a : Automation Cfg) :
    matchesTrigger env' ed a = matchesTrigger env ed a := by
  unfold matchesTrigger
  rw [h]

/-- A run that returns without a value (the `return;` after a failed
trigger validation) is exactly the mismatch branch: failed record with the
fixed message, no action invoked, stored automation untouched. -/
theorem exec_outcome_ok_none {Cfg Dat Res Ctx : Type} (env : EngineEnv Cfg Dat Res Ctx)
    (a : Automation Cfg) (td : Dat) (ctx : Option Ctx) (now : Nat)
    (h : (executeAutomation env (some a) td ctx now).outcome = .ok none) :
    executeAutomation env (some a) td ctx now =
      ⟨some ⟨a.id, .failed, td, [], some "Trigger validation failed"⟩, some a, [], .ok none⟩ := by
  by_cases hA : a.isActive
  · simp only [executeAutomation, hA, if_true] at h ⊢
    cases hF : (sortNodes a.nodes).find? (fun n => n.type == NodeType.trigger) with
    | none => simp [hF] at h
    | some tn =>
      cases hH : env.triggers tn.service with
      | none => simp [hF, hH] at h
      | some validate =>
        cases hV : validate tn.config td with
        | error e => simp [hF, hH, hV] at h
        | ok b =>
          cases b with
          | false => simp [hF, hH, hV]
          | true =>
            cases hR : (runNodes env.actions td ctx (sortNodes a.nodes)).2.2 with
            | some e => simp [hF, hH, hV, hR] at h
            | none => simp [hF, hH, hV, hR] at h
  · simp [executeAutomation, hA] at h

/-- C2: a run of `executeAutomation` on an active automation whose trigger
handler validates the event data as `false` saves the execution record as
`failed` with the fixed message `Trigger validation failed`, invokes no
action handler at all, and returns normally (no error is raised to the
caller). -/
theorem triggerMismatch_fails_record_no_actions_returns
    {Cfg Dat Res Ctx : Type} (env : EngineEnv Cfg Dat Res Ctx)
    (a : Automation Cfg) (td : Dat) (ctx : Option Ctx) (now : Nat)
    (tn : Node Cfg) (validate : Cfg → Dat → Except String Bool)
    (hActive : a.isActive = true)
    (hFind : (sortNodes a.nodes).find? (fun n => n.type == NodeType.trigger) = some tn)
    (hHandler : env.triggers tn.service = some validate)
    (hInvalid : validate tn.config td = .ok false) :
    executeAutomation env (some a) td ctx now =
      ⟨some ⟨a.id, .failed, td, [], some "Trigger validation failed"⟩, some a, [], .ok none⟩ := by
  simp only [executeAutomation, hActive, if_true]
  simp [hFind, hHandler, hInvalid]

/-- Witness for C2: `autoOk` receives payload `0`, which its trigger
rejects. -/
theorem triggerMismatch_fails_record_no_actions_returns_witness :
    executeAutomation envW (some autoOk) 0 none 0 =
      ⟨some ⟨"A1", .failed, 0, [], some "Trigger validation failed"⟩, some autoOk, [], .ok none⟩ :=
  triggerMismatch_fails_record_no_actions_returns envW autoOk 0 none 0 trigNode trigEq1
    rfl (by decide) rfl rfl

/-- C9: a missing automation id and an inactive automation are both
rejected by `executeAutomation` with a caller-visible error before any
execution record is created, and every run launched by `triggerByEvent`
belongs to an automation with `isActive = true`. -/
theorem inactive_or_missing_rejected_no_record
    {Cfg Dat Res Ctx : Type} (env : EngineEnv Cfg Dat Res Ctx)
    (td ed : Dat) (ctx : Option Ctx) (now : Nat) :
    executeAutomation env (none : Option (Automation Cfg)) td ctx now =
      ⟨none, none, [], .error "Automation not found or inactive"⟩ ∧
    (∀ a : Automation Cfg, a.isActive = false →
      executeAutomation env (some a) td ctx now =
        ⟨none, some a, [], .error "Automation not found or inactive"⟩) ∧
    (∀ (autos : List (Automation Cfg)) (o : ExecOutcome Cfg Dat Res),
      o ∈ (triggerByEvent env autos ed ctx now).2 →
      ∃ a, a ∈ autos ∧ a.isActive = true ∧ o = executeAutomation env (some a) ed ctx now) := by
  refine ⟨rfl, ?_, ?_⟩
  · intro a hA
    simp [executeAutomation, hA]
  · intro autos o ho
    rw [triggerByEvent, dispatchLoop_snd] at ho
    simp only [List.mem_map, List.mem_filter, List.mem_filter] at ho
    obtain ⟨a, ⟨⟨haMem, haAct⟩, _⟩, rfl⟩ := ho
    exact ⟨a, haMem, by simpa using haAct, rfl⟩

/-- Witness for C9: the inactive automation `autoInactive` is rejected
with no record created. -/
theorem inactive_or_missing_rejected_no_record_witness :
    executeAutomation envW (some autoInactive) 0 none 0 =
      ⟨none, some autoInactive, [], .error "Automation not found or inactive"⟩ :=
  (inactive_or_missing_rejected_no_record envW 0 0 none 0).2.1 autoInactive rfl

/-- C5 counterexample: on an active automation with no trigger node, the
error is indeed raised to the caller, but — contrary to the claim — the
run does leave behind an `AutomationExecution` record with status
`failed` (the catch block saves the record before re-raising). -/
theorem missingTrigger_failed_record_example :
    (executeAutomation envW (some autoNoTrig) 0 none 0).outcome =
        Except.error "No trigger node found" ∧
    (executeAutomation envW (some autoNoTrig) 0 none 0).record =
        some ⟨"A3", .failed, 0, [], some "No trigger node found"⟩ := by
  decide

/-- C5 (amended): a run of `executeAutomation` on an active automation
with no trigger node raises `No trigger node found` to the caller, and the
already-created execution record is persisted with status `failed` and
that message (it is not left unrecorded). -/
theorem missingTrigger_raises_and_records_failed
    {Cfg Dat Res Ctx : Type} (env : EngineEnv Cfg Dat Res Ctx)
    (a : Automation Cfg) (td : Dat) (ctx : Option Ctx) (now : Nat)
    (hActive : a.isActive = true)
    (hNoTrig : (sortNodes a.nodes).find? (fun n => n.type == NodeType.trigger) = none) :
    executeAutomation env (some a) td ctx now =
      ⟨some ⟨a.id, .failed, td, [], some "No trigger node found"⟩, some a, [],
       .error "No trigger node found"⟩ := by
  simp only [executeAutomation, hActive, if_true]
  simp [hNoTrig]

/-- Witness for C5's amended theorem, at `autoNoTrig`. -/
theorem missingTrigger_raises_and_records_failed_witness :
    executeAutomation envW (some autoNoTrig) 0 none 0 =
      ⟨some ⟨"A3", .failed, 0, [], some "No trigger node found"⟩, some autoNoTrig, [],
       .error "No trigger node found"⟩ :=
  missingTrigger_raises_and_records_failed envW autoNoTrig 0 none 0 rfl (by decide)

/-- C7 counterexample: dispatching an event over an active automation
whose trigger service has no registered handler produces no result entry,
launches no execution and raises nothing — the automation is silently
skipped by `continue`, contradicting the claim that the event-dispatch
path surfaces the unknown identifier as an error. -/
theorem dispatch_unknown_trigger_silently_skipped_example :
    triggerByEvent envW [autoUnknownTrig] 1 none 0 = ([], []) := by
  decide

/-- C7 (amended): an unknown trigger-kind identifier is a hard error in
`executeAutomation` — it raises `Trigger handler not found: <service>` and
marks the execution record `failed` — but `triggerByEvent` does not
surface it: an automation whose trigger service has no registered handler
is silently skipped, producing no result entry and no execution. -/
theorem unknownTriggerHandler_execute_raises_dispatch_skips
    {Cfg Dat Res Ctx : Type} (env : EngineEnv Cfg Dat Res Ctx)
    (a : Automation Cfg) (td ed : Dat) (ctx : Option Ctx) (now : Nat)
    (tn tn' : Node Cfg)
    (hActive : a.isActive = true)
    (hFindSorted : (sortNodes a.nodes).find? (fun n => n.type == NodeType.trigger) = some tn)
    (hNone : env.triggers tn.service = none)
    (hFindStored : a.nodes.find? (fun n => n.type == NodeType.trigger) = some tn')
    (hNoneStored : env.triggers tn'.service = none) :
    executeAutomation env (some a) td ctx now =
      ⟨some ⟨a.id, .failed, td, [], some ("Trigger handler not found: " ++ tn.service)⟩,
       some a, [], .error ("Trigger handler not found: " ++ tn.service)⟩ ∧
    triggerByEvent env [a] ed ctx now = ([], []) := by
  constructor
  · simp only [executeAutomation, hActive, if_true]
    simp [hFindSorted, hNone]
  · have hm : matchesTrigger env ed a = false := by
      unfold matchesTrigger
      simp [hFindStored, hNoneStored]
    simp [triggerByEvent, List.filter, hActive, dispatchLoop, hm]

/-- Witness for C7's amended theorem, at `autoUnknownTrig`. -/
theorem unknownTriggerHandler_execute_raises_dispatch_skips_witness :
    executeAutomation envW (some autoUnknownTrig) 1 none 0 =
      ⟨some ⟨"A5", .failed, 1, [], some "Trigger handler not found: t_missing"⟩,
       some autoUnknownTrig, [], .error "Trigger handler not found: t_missing"⟩ ∧
    triggerByEvent envW [autoUnknownTrig] 2 none 0 = ([], []) :=
  unknownTriggerHandler_execute_raises_dispatch_skips envW autoUnknownTrig 1 2 none 0
    ⟨"n_t", .trigger, "t_missing", (), 1⟩ ⟨"n_t", .trigger, "t_missing", (), 1⟩
    rfl (by decide) rfl (by decide) rfl

/-- C1 counterexample: in a run where the second of two action nodes
raises (`k = 2`), the first action was invoked — so one entry had
accumulated — yet the persisted record's `actionData` is empty rather
than containing the claimed `k - 1 = 1` entries: the catch block saves
only `status` and `errorMessage`, discarding the accumulated results. -/
theorem actionFailure_actionData_empty_example :
    (executeAutomation envW (some autoBoom) 1 none 0).record =
        some ⟨"A2", .failed, 1, [], some "boom"⟩ ∧
    (executeAutomation envW (some autoBoom) 1 none 0).invoked = ["n_a1", "n_a2"] := by
  decide

/-- C1 (amended): when an action node's handler raises, the persisted
record ends `failed` with the raised error's message and the error is
re-raised to the caller, and no action node after the failing one is ever
invoked (the invoked ids are a prefix of the action-node ids in execution
order) — but the record's `actionData` does not receive the accumulated
entries: it keeps its creation-time empty value. -/
theorem actionFailure_marks_failed_discards_actionData
    {Cfg Dat Res Ctx : Type} (env : EngineEnv Cfg Dat Res Ctx)
    (a : Automation Cfg) (td : Dat) (ctx : Option Ctx) (now : Nat)
    (tn : Node Cfg) (validate : Cfg → Dat → Except String Bool)
    (entries : List (ActionEntry Res)) (invoked : List String) (e : String)
    (hActive : a.isActive = true)
    (hFind : (sortNodes a.nodes).find? (fun n => n.type == NodeType.trigger) = some tn)
    (hHandler : env.triggers tn.service = some validate)
    (hValid : validate tn.config td = .ok true)
    (hRun : runNodes env.actions td ctx (sortNodes a.nodes) = (entries, invoked, some e)) :
    executeAutomation env (some a) td ctx now =
      ⟨some ⟨a.id, .failed, td, [], some e⟩, some a, invoked, .error e⟩ ∧
    ∃ later, ((sortNodes a.nodes).filter (fun n => n.type == NodeType.action)).map (·.id) =
        invoked ++ later := by
  constructor
  · simp only [executeAutomation, hActive, if_true]
    simp [hFind, hHandler, hValid, hRun]
  · obtain ⟨later, hl⟩ := runNodes_invoked_prefix env.actions td ctx (sortNodes a.nodes)
    rw [hRun] at hl
    exact ⟨later, by simpa using hl⟩

/-- Witness for C1's amended theorem, at `autoBoom` (second action node
throws `boom` after the first succeeded). -/
theorem actionFailure_marks_failed_discards_actionData_witness :
    (executeAutomation envW (some autoBoom) 1 none 0 =
      ⟨some ⟨"A2", .failed, 1, [], some "boom"⟩, some autoBoom, ["n_a1", "n_a2"],
       .error "boom"⟩) ∧
    ∃ later, ((sortNodes autoBoom.nodes).filter (fun n => n.type == NodeType.action)).map (·.id) =
        ["n_a1", "n_a2"] ++ later :=
  actionFailure_marks_failed_discards_actionData envW autoBoom 1 none 0 trigNode trigEq1
    [⟨"n_a1", "a_echo", 1⟩] ["n_a1", "n_a2"] "boom"
    rfl (by decide) rfl rfl (by decide)

/-- C8: a run that completes with status `success` persists one
`actionData` entry per action node of the automation — the entries follow
the action nodes of the node list re-sorted by ascending `position` (not
stored array order), their count equals the number of action nodes, and
the traversed positions are ascending. -/
theorem success_actionData_one_entry_per_action_sorted
    {Cfg Dat Res Ctx : Type} (env : EngineEnv Cfg Dat Res Ctx)
    (a : Automation Cfg) (td : Dat) (ctx : Option Ctx) (now : Nat)
    (tn : Node Cfg) (validate : Cfg → Dat → Except String Bool)
    (entries : List (ActionEntry Res)) (invoked : List String)
    (hActive : a.isActive = true)
    (hFind : (sortNodes a.nodes).find? (fun n => n.type == NodeType.trigger) = some tn)
    (hHandler : env.triggers tn.service = some validate)
    (hValid : validate tn.config td = .ok true)
    (hRun : runNodes env.actions td ctx (sortNodes a.nodes) = (entries, invoked, none)) :
    executeAutomation env (some a) td ctx now =
      ⟨some ⟨a.id, .success, td, entries, none⟩,
       some { a with
              nodes := sortNodes a.nodes,
              executionCount := a.executionCount + 1,
              lastExecutedAt := some now },
       invoked, .ok (some entries)⟩ ∧
    entries.map (fun en => (en.nodeId, en.service)) =
      ((sortNodes a.nodes).filter (fun n => n.type == NodeType.action)).map
        (fun n => (n.id, n.service)) ∧
    entries.length = (a.nodes.filter (fun n => n.type == NodeType.action)).length ∧
    List.Pairwise (fun x y : Int => x ≤ y)
      (((sortNodes a.nodes).filter (fun n => n.type == NodeType.action)).map (·.position)) := by
  obtain ⟨hmap, _⟩ := runNodes_ok_entries env.actions td ctx (sortNodes a.nodes) entries invoked hRun
  refine ⟨?_, hmap, ?_, ?_⟩
  · simp only [executeAutomation, hActive, if_true]
    simp [hFind, hHandler, hValid, hRun]
  · calc entries.length
        = (entries.map (fun en => (en.nodeId, en.service))).length := by simp
      _ = (((sortNodes a.nodes).filter (fun n => n.type == NodeType.action)).map
            (fun n => (n.id, n.service))).length := by rw [hmap]
      _ = ((sortNodes a.nodes).filter (fun n => n.type == NodeType.action)).length := by simp
      _ = (a.nodes.filter (fun n => n.type == NodeType.action)).length :=
            ((List.perm_insertionSort nodeLE a.nodes).filter _).length_eq
  · have hs : List.Sorted nodeLE (sortNodes a.nodes) :=
      List.sorted_insertionSort nodeLE a.nodes
    have hsf : List.Pairwise nodeLE
        ((sortNodes a.nodes).filter (fun n => n.type == NodeType.action)) :=
      List.Pairwise.sublist (List.filter_sublist _) hs
    exact List.pairwise_map.mpr hsf

/-- Witness for C8, at `autoOk` whose nodes are stored out of `position`
order. -/
theorem success_actionData_one_entry_per_action_sorted_witness :
    (executeAutomation envW (some autoOk) 1 none 7 =
      ⟨some ⟨"A1", .success, 1, [⟨"n_a1", "a_echo", 1⟩, ⟨"n_a2", "a_echo", 1⟩], none⟩,
       some { autoOk with
              nodes := sortNodes autoOk.nodes,
              executionCount := autoOk.executionCount + 1,
              lastExecutedAt := some 7 },
       ["n_a1", "n_a2"], .ok (some [⟨"n_a1", "a_echo", 1⟩, ⟨"n_a2", "a_echo", 1⟩])⟩) ∧
    ([⟨"n_a1", "a_echo", 1⟩, ⟨"n_a2", "a_echo", 1⟩] : List (ActionEntry Nat)).map
        (fun en => (en.nodeId, en.service)) =
      ((sortNodes autoOk.nodes).filter (fun n => n.type == NodeType.action)).map
        (fun n => (n.id, n.service)) ∧
    ([⟨"n_a1", "a_echo", 1⟩, ⟨"n_a2", "a_echo", 1⟩] : List (ActionEntry Nat)).length =
      (autoOk.nodes.filter (fun n => n.type == NodeType.action)).length ∧
    List.Pairwise (fun x y : Int => x ≤ y)
      (((sortNodes autoOk.nodes).filter (fun n => n.type == NodeType.action)).map (·.position)) :=
  success_actionData_one_entry_per_action_sorted envW autoOk 1 none 7 trigNode trigEq1
    [⟨"n_a1", "a_echo", 1⟩, ⟨"n_a2", "a_echo", 1⟩] ["n_a1", "n_a2"]
    rfl (by decide) rfl rfl (by decide)

/-- C3 counterexample: an orchestration attempt that creates an execution
record (the trigger-mismatch run on `autoOk`) leaves `executionCount`
untouched at its prior value `5` — the counter is not incremented on every
started run. -/
theorem executionCount_unchanged_on_failed_run_example :
    (executeAutomation envW (some autoOk) 0 none 0).record =
        some ⟨"A1", .failed, 0, [], some "Trigger validation failed"⟩ ∧
    (executeAutomation envW (some autoOk) 0 none 0).automationAfter = some autoOk ∧
    autoOk.executionCount = 5 := by
  decide

/-- C3 (amended): `executionCount` is incremented by exactly 1 only when
the run is persisted with status `success`; every run whose record is not
`success` — trigger mismatch, missing trigger node, unknown handler, or an
action raise — leaves the stored automation document unchanged. -/
theorem executionCount_increment_iff_success
    {Cfg Dat Res Ctx : Type} (env : EngineEnv Cfg Dat Res Ctx)
    (a : Automation Cfg) (td : Dat) (ctx : Option Ctx) (now : Nat) :
    ((executeAutomation env (some a) td ctx now).record.map (·.status) =
        some ExecStatus.success →
      (executeAutomation env (some a) td ctx now).automationAfter =
        some { a with
               nodes := sortNodes a.nodes,
               executionCount := a.executionCount + 1,
               lastExecutedAt := some now }) ∧
    ((executeAutomation env (some a) td ctx now).record.map (·.status) ≠
        some ExecStatus.success →
      (executeAutomation env (some a) td ctx now).automationAfter = some a) := by
  by_cases hA : a.isActive
  · simp only [executeAutomation, hA, if_true]
    cases hF : (sortNodes a.nodes).find? (fun n => n.type == NodeType.trigger) with
    | none => simp [hF]
    | some tn =>
      cases hH : env.triggers tn.service with
      | none => simp [hF, hH]
      | some validate =>
        cases hV : validate tn.config td with
        | error e => simp [hF, hH, hV]
        | ok b =>
          cases b with
          | false => simp [hF, hH, hV]
          | true =>
            cases hR : (runNodes env.actions td ctx (sortNodes a.nodes)).2.2 with
            | some e => simp [hF, hH, hV, hR]
            | none => simp [hF, hH, hV, hR]
  · simp [executeAutomation, hA]

/-- Witness for C3's amended theorem: the successful run on `autoOk`
increments `executionCount` from 5 to 6 and stamps `lastExecutedAt`. -/
theorem executionCount_increment_iff_success_witness :
    (executeAutomation envW (some autoOk) 1 none 7).automationAfter =
      some { autoOk with
             nodes := sortNodes autoOk.nodes,
             executionCount := autoOk.executionCount + 1,
             lastExecutedAt := some 7 } :=
  (executionCount_increment_iff_success envW autoOk 1 none 7).1 (by decide)

/-- C4: the list returned by `triggerByEvent` is exactly one
`{ automationId, name, triggered: true }` entry per active automation
whose trigger matches — an automation whose validation raises simply does
not match, without affecting any other automation — the launched runs are
exactly one orchestration per matched automation, and the returned list is
entirely independent of the action registry, so no error raised inside a
launched run can reach or change the dispatcher's own result. -/
theorem dispatch_results_isolated_from_run_errors
    {Cfg Dat Res Ctx : Type} (env env' : EngineEnv Cfg Dat Res Ctx)
    (autos : List (Automation Cfg)) (ed : Dat) (ctx : Option Ctx) (now : Nat)
    (h : env'.triggers = env.triggers) :
    (triggerByEvent env autos ed ctx now).1 =
      ((autos.filter (·.isActive)).filter (matchesTrigger env ed)).map
        (fun a => ⟨a.id, a.name, true⟩) ∧
    (triggerByEvent env autos ed ctx now).2 =
      ((autos.filter (·.isActive)).filter (matchesTrigger env ed)).map
        (fun a => executeAutomation env (some a) ed ctx now) ∧
    (triggerByEvent env' autos ed ctx now).1 = (triggerByEvent env autos ed ctx now).1 := by
  refine ⟨dispatchLoop_fst env ed ctx now _, dispatchLoop_snd env ed ctx now _, ?_⟩
  rw [triggerByEvent, triggerByEvent, dispatchLoop_fst, dispatchLoop_fst]
  have hc : ∀ x ∈ autos.filter (·.isActive),
      matchesTrigger env' ed x = matchesTrigger env ed x :=
    fun x _ => matchesTrigger_triggers_only env env' h ed x
  rw [List.filter_congr hc]

/-- Witness for C4: with the actions registry emptied (`envNoActs`), the
dispatcher's result over `autoOk` and `autoInactive` is unchanged. -/
theorem dispatch_results_isolated_from_run_errors_witness :
    (triggerByEvent envW [autoOk, autoInactive] 1 none 0).1 =
      (([autoOk, autoInactive].filter (·.isActive)).filter (matchesTrigger envW 1)).map
        (fun a => ⟨a.id, a.name, true⟩) ∧
    (triggerByEvent envW [autoOk, autoInactive] 1 none 0).2 =
      (([autoOk, autoInactive].filter (·.isActive)).filter (matchesTrigger envW 1)).map
        (fun a => executeAutomation envW (some a) 1 none 0) ∧
    (triggerByEvent envNoActs [autoOk, autoInactive] 1 none 0).1 =
      (triggerByEvent envW [autoOk, autoInactive] 1 none 0).1 :=
  dispatch_results_isolated_from_run_errors envW envNoActs [autoOk, autoInactive] 1 none 0 rfl

/-- C10: for every existing automation, `testAutomation` never raises —
every error from `executeAutomation` is converted into an `.ok` result
with status `failed` carrying the error's message — and a run whose
trigger merely fails to match (a normal, valueless return from
`executeAutomation`) is reported as status `success` with
`triggered = true` and `actionExecuted = true`, even though no action
handler was invoked and the execution record was persisted as `failed`. -/
theorem testAutomation_never_raises_and_mismatch_reports_success
    {Cfg Dat Res Ctx : Type} (env : EngineEnv Cfg Dat Res Ctx) :
    (∀ (a : Automation Cfg) (td : Dat) (now : Nat),
      ∃ r, testAutomation env (some a) td now = .ok r) ∧
    (∀ (a : Automation Cfg) (td : Dat) (now : Nat) (e : String),
      (executeAutomation env (some a) td (none : Option Ctx) now).outcome = .error e →
      testAutomation env (some a) td now =
        .ok ⟨"failed", false, false, e⟩) ∧
    (∀ (a : Automation Cfg) (td : Dat) (now : Nat),
      (executeAutomation env (some a) td (none : Option Ctx) now).outcome = .ok none →
      testAutomation env (some a) td now =
        .ok ⟨"success", true, true, "Test completed successfully"⟩ ∧
      (executeAutomation env (some a) td (none : Option Ctx) now).invoked = [] ∧
      (executeAutomation env (some a) td (none : Option Ctx) now).record.map (·.status) =
        some ExecStatus.failed) := by
  refine ⟨?_, ?_, ?_⟩
  · intro a td now
    cases h : (executeAutomation env (some a) td (none : Option Ctx) now).outcome with
    | error e =>
      exact ⟨⟨"failed", false, false, e⟩, by simp [testAutomation, h]⟩
    | ok v =>
      exact ⟨⟨"success", true, true, "Test completed successfully"⟩,
        by simp [testAutomation, h]⟩
  · intro a td now e h
    simp [testAutomation, h]
  · intro a td now h
    have hshape := exec_outcome_ok_none env a td none now h
    refine ⟨?_, ?_, ?_⟩
    · simp [testAutomation, h]
    · rw [hshape]
    · rw [hshape]
      rfl

/-- Witness for C10: the trigger-mismatch run on `autoOk` with payload 0
is reported by `testAutomation` as a fully successful test. -/
theorem testAutomation_never_raises_and_mismatch_reports_success_witness :
    testAutomation envW (some autoOk) 0 0 =
      .ok ⟨"success", true, true, "Test completed successfully"⟩ ∧
    (executeAutomation envW (some autoOk) 0 none 0).invoked = [] ∧
    (executeAutomation envW (some autoOk) 0 none 0).record.map (·.status) =
      some ExecStatus.failed :=
  (testAutomation_never_raises_and_mismatch_reports_success envW).2.2 autoOk 0 0 (by decide)

/-- C6 counterexample: the registered `keplero_api_call` handler, given a
rejected network request (`ECONNREFUSED`), returns a normal structured
result with `success: false` — it does not raise, contradicting the claim
that every registered action handler surfaces network failures by
raising. -/
theorem api_call_network_failure_returns_ok_example :
    keplero_api_call (.error ⟨some "connect ECONNREFUSED", some "ECONNREFUSED", none, none⟩) =
      .ok ⟨false, none, none, some "connect ECONNREFUSED"⟩ ∧
    (keplero_api_call
      (.error ⟨some "connect ECONNREFUSED", some "ECONNREFUSED", none, none⟩)).isOk = true := by
  decide

/-- C6 (amended): the `keplero_api_call` and `keplero_outbound_call`
handlers catch a failing network request and return it to the
orchestrator as a normal structured result with `success = false`
(carrying the error information), rather than raising — so the
orchestrator does not treat the network failure as fatal to the
execution. -/
theorem network_failure_returned_not_raised :
    (∀ f : HttpFailure,
      keplero_api_call (.error f) = .ok ⟨false, f.responseStatus, none, f.message⟩) ∧
    (∀ (cid i : String) (nm : Option String) (ph : String) (f : HttpFailure),
      keplero_outbound_call (some cid) (some ⟨i, nm, some ph⟩) true (.error f) =
        .ok ⟨false, none, none,
             some (((f.responseMessage).or f.message).getD "Call failed"),
             (if f.code == some "ECONNREFUSED" then some "Python backend not reachable"
              else f.message),
             some i, some ph⟩) :=
  ⟨fun _ => rfl, fun _ _ _ _ _ => rfl⟩
